import Mathlib

/-!
Verification of the commander-deck-generator browser client.

The definitions below are a shallow embedding of the client's React pages:

* `Results` (result presenter): card categorization loop, `downloadDeck`,
  `copyDeck`, and the deck-fetch effect;
* `Process` (job monitor): the activation effect (one-shot status fetch plus
  WebSocket creation) and the `ws.onmessage` handler;
* `Generator` (job submitter): `generateCommander` and `generateDeck`.

Asynchronous handlers are modelled as pure transition functions on explicit
state records, with the network outcome passed in as an `Except` value and
side effects (alerts, navigations, scheduled timeouts, opened requests)
recorded in lists on the state.
-/

/-! ## Data model -/

/-- A card of a generated deck, as delivered by `GET /deck/{id}`. -/
structure Card where
  name : String
  type_line : String
  image_uri : Option String := none
  quantity : Nat := 1
deriving Repr, DecidableEq

/-- A deck payload: commander name, creation date, cards and combos.
Combos carry no structure relevant to the verified claims, so a combo is
kept abstract as its display fields. -/
structure Combo where
  result : String
  instructions : String
deriving Repr, DecidableEq

structure Deck where
  commander : String
  created_at : String
  cards : List Card
  combos : List Combo
deriving Repr, DecidableEq

/-! ## Substring matching

JavaScript's `type.includes(key)` is a plain substring test.  It is modelled
over the character lists underlying the two strings. -/

/-- Test `isPrefixL pat s`: `pat` is a prefix of `s` (character lists). -/
def isPrefixL : List Char → List Char → Bool
  | [], _ => true
  | _ :: _, [] => false
  | a :: as, b :: bs => a == b && isPrefixL as bs

/-- Test `containsSubL s pat`: `pat` occurs as a contiguous substring of `s`. -/
def containsSubL : List Char → List Char → Bool
  | [], pat => pat.isEmpty
  | s@(_ :: rest), pat => isPrefixL pat s || containsSubL rest pat

/-- Model of JavaScript `s.includes(key)`. -/
def jsIncludes (s key : String) : Bool :=
  containsSubL s.data key.data

/-! ## Card classifier (Results page, categorization loop) -/

/-- The fixed key order of the `categories` object literal in `Results`:
`Object.keys` iterates string keys in insertion order. -/
def categoryOrder : List String :=
  ["Creature", "Planeswalker", "Instant", "Sorcery", "Artifact", "Enchantment", "Land"]

/-- The inner `for (const key of Object.keys(categories)) ... break` loop:
first category name occurring in the type line, if any. -/
def firstMatch (typeLine : String) : List String → Option String
  | [] => none
  | k :: ks => if jsIncludes typeLine k then some k else firstMatch typeLine ks

/-- The bucket a card ends up in: the first matching category, else "Other". -/
def classify (c : Card) : String :=
  (firstMatch c.type_line categoryOrder).getD "Other"

/-- Model of `categories[key].push(card)`, on an association-list representation of the
JS object: append to the first entry with that key, or (for the lazily created
"Other" bucket) append a fresh entry at the end, as JS property insertion does. -/
def pushCard (k : String) (c : Card) : List (String × List Card) → List (String × List Card)
  | [] => [(k, [c])]
  | (k2, cs) :: rest =>
      if k2 == k then (k2, cs ++ [c]) :: rest else (k2, cs) :: pushCard k c rest

/-- The `categories` object literal before the loop runs: every fixed category
present with an empty list, no "Other" entry yet. -/
def initBuckets : List (String × List Card) :=
  categoryOrder.map (fun k => (k, []))

/-- One iteration of the `deck.cards.forEach` body. -/
def addCard (bs : List (String × List Card)) (c : Card) : List (String × List Card) :=
  match firstMatch c.type_line categoryOrder with
  | some k => pushCard k c bs
  | none => pushCard "Other" c bs

/-- The whole categorization loop over the deck's card list. -/
def categorize (cards : List Card) : List (String × List Card) :=
  cards.foldl addCard initBuckets

/-! ## Export actions (Results page) -/

/-- JS `replace(/\s+/g, '_')`: each maximal run of whitespace becomes one
underscore, modelled on the character list. -/
def collapseWsAux : Bool → List Char → List Char
  | _, [] => []
  | inWs, a :: as =>
      if a.isWhitespace then
        if inWs then collapseWsAux true as else '_' :: collapseWsAux true as
      else a :: collapseWsAux false as

def collapseWs (l : List Char) : List Char :=
  collapseWsAux false l

def underscoreWs (s : String) : String :=
  String.mk (collapseWs s.data)

/-- The text built by `downloadDeck` together with the file name it is saved
under: one line "1 {name}" per card joined by newlines, file name the commander
name with whitespace runs replaced by underscores, suffixed `_Deck.txt`. -/
def downloadDeck (d : Deck) : String × String :=
  (String.intercalate "\n" (d.cards.map (fun c => "1 " ++ c.name)),
   underscoreWs d.commander ++ "_Deck.txt")

/-- The text written to the clipboard by `copyDeck`. -/
def copyDeck (d : Deck) : String :=
  String.intercalate "\n" (d.cards.map (fun c => "1 " ++ c.name))

/-! ## Job monitor (Process page)

The `useEffect` body of `Process` is modelled as a transition system on an
explicit state record.  Two points of the source are load-bearing:

* `checkStatus()` is an `async` function whose continuation (after `await`)
  runs only when the HTTP response arrives, while `new WebSocket(...)` on the
  next line executes synchronously during the same effect run — so the stream
  is created before the status response is processed, whatever that response
  turns out to be;
* `ws.onmessage` appends every parsed event to `logs` and, exactly when the
  event's `message` equals the sentinel text, sets the status to "completed"
  and calls `setTimeout(() => navigate(...), 2000)`; the effect cleanup only
  closes the socket and never clears these timeouts. -/

/-- An inbound stream frame `{timestamp, agent_name, message}`. -/
structure LogEvent where
  timestamp : Nat
  agent_name : String
  message : String
deriving Repr, DecidableEq

/-- The completion sentinel carried on the stream. -/
def sentinel : String := "Deck generation complete."

/-- State of the `Process` page plus its recorded side effects.
`navigations` are `navigate(...)` calls already made; `scheduled` are
`setTimeout` callbacks still pending, as (delay in ms, target route) pairs. -/
structure MonitorState where
  logs : List LogEvent
  status : String
  wsOpen : Bool
  navigations : List String
  scheduled : List (Nat × String)
deriving Repr, DecidableEq

/-- The state as initialised by `useState`: empty log, status "pending",
no socket, no effects yet. -/
def monitorInit : MonitorState :=
  { logs := [], status := "pending", wsOpen := false, navigations := [], scheduled := [] }

/-- Model of the `new WebSocket` call creating the stream connection. -/
def openStream (s : MonitorState) : MonitorState :=
  { s with wsOpen := true }

/-- The continuation of `checkStatus` once the `GET /deck/{id}` round trip
finishes: on success store the fetched status and, if it is "completed",
navigate to the results page at once; on failure only `console.error`. -/
def applyStatusResult (id : String) (s : MonitorState) : Except Unit String → MonitorState
  | .ok st =>
      let s2 : MonitorState := { s with status := st }
      if st == "completed" then
        { s2 with navigations := s2.navigations ++ ["/results/" ++ id] }
      else s2
  | .error _ => s

/-- The activation effect: `checkStatus()` is started, `new WebSocket` runs
synchronously, and the status response is processed when it arrives.  The
socket is therefore opened before (and regardless of) the fetched status. -/
def activate (id : String) (res : Except Unit String) : MonitorState :=
  applyStatusResult id (openStream monitorInit) res

/-- The `ws.onmessage` handler for one inbound frame. -/
def onMessage (id : String) (s : MonitorState) (msg : LogEvent) : MonitorState :=
  let s2 : MonitorState := { s with logs := s.logs ++ [msg] }
  if msg.message == sentinel then
    { s2 with status := "completed", scheduled := s2.scheduled ++ [(2000, "/results/" ++ id)] }
  else s2

/-- Delivery of a sequence of frames in arrival order. -/
def processEvents (id : String) (s : MonitorState) (events : List LogEvent) : MonitorState :=
  events.foldl (onMessage id) s

/-! ## Job submitter (Generator page) -/

/-- A commander as returned by `POST /generate/commander`. -/
structure Commander where
  name : String
  reasoning : String := ""
  image_uri : Option String := none
deriving Repr, DecidableEq

/-- The deck-generation settings sent by `generateDeck`. -/
structure DeckRequest where
  mode : String := "Thinking"
  num_agents : Nat := 1
  num_decks : Nat := 1
  use_owned_cards : Bool := false
deriving Repr, DecidableEq

/-- State of the `Generator` page plus recorded side effects.  `requests`
logs every HTTP request actually issued, so that "no automatic retry" and
"no-op without a commander" are visible in the model. -/
structure GeneratorState where
  commander : Option Commander
  loadingCmd : Bool
  alerts : List String
  navigations : List String
  requests : List String
deriving Repr, DecidableEq

def generatorInit : GeneratorState :=
  { commander := none, loadingCmd := false, alerts := [], navigations := [], requests := [] }

/-- The `generateCommander` click handler, from issuing the single POST to the
response (or failure) being handled: on success the commander is replaced, on
failure an alert is shown and the commander is left as it was; `loadingCmd`
is raised at the start and lowered at the end either way. -/
def generateCommander (s : GeneratorState) (res : Except Unit Commander) : GeneratorState :=
  let s2 : GeneratorState :=
    { s with loadingCmd := true, requests := s.requests ++ ["POST /api/generate/commander"] }
  let s3 : GeneratorState :=
    match res with
    | .ok cmd => { s2 with commander := some cmd }
    | .error _ => { s2 with alerts := s2.alerts ++ ["Failed to generate commander"] }
  { s3 with loadingCmd := false }

/-- The multi-deck notice shown when `numDecks > 1`. -/
def multiDeckNotice (n : Nat) : String :=
  "Started generating " ++ toString n ++ " decks. Redirecting to the first one."

/-- The `generateDeck` click handler.  With no commander it returns before
doing anything.  Otherwise one POST is issued; on success the multi-deck
notice is shown when `num_decks > 1` and the client navigates to the single
returned job id; on failure an alert is shown. -/
def generateDeck (s : GeneratorState) (req : DeckRequest) (res : Except Unit String) :
    GeneratorState :=
  match s.commander with
  | none => s
  | some _ =>
    let s2 : GeneratorState := { s with requests := s.requests ++ ["POST /api/generate/deck"] }
    match res with
    | .ok deckId =>
        let s3 : GeneratorState :=
          if req.num_decks > 1 then
            { s2 with alerts := s2.alerts ++ [multiDeckNotice req.num_decks] }
          else s2
        { s3 with navigations := s3.navigations ++ ["/process/" ++ deckId] }
    | .error _ => { s2 with alerts := s2.alerts ++ ["Failed to start generation"] }

/-! ## Result presenter state (Results page, fetch effect and render guard) -/

/-- State of the `Results` page.  `consoleErrors` counts `console.error`
calls; `userErrors` records messages surfaced to the user — the `Results`
source has no error UI at all, so nothing is ever appended to it. -/
structure ResultsState where
  deck : Option Deck
  showCombos : Bool
  consoleErrors : Nat
  userErrors : List String
deriving Repr, DecidableEq

def resultsInit : ResultsState :=
  { deck := none, showCombos := false, consoleErrors := 0, userErrors := [] }

/-- The `fetchDeck` effect once the `GET /deck/{id}` round trip finishes:
store the deck on success; on failure only `console.error(err)`. -/
def fetchDeckResult (s : ResultsState) (res : Except Unit Deck) : ResultsState :=
  match res with
  | .ok d => { s with deck := some d }
  | .error _ => { s with consoleErrors := s.consoleErrors + 1 }

/-- What the page renders: `if (!deck) return <div>Loading...</div>` guards
the whole body, so the view is either the placeholder or the full deck view. -/
inductive ResultsView
  | loading
  | full (d : Deck)
deriving Repr, DecidableEq

def renderResults (s : ResultsState) : ResultsView :=
  match s.deck with
  | none => ResultsView.loading
  | some d => ResultsView.full d

/-- Total number of cards in all buckets. -/
def totalLen (bs : List (String × List Card)) : Nat :=
  (bs.map (fun p => p.2.length)).sum

-- sanity checks of the embedding on concrete inputs
example : jsIncludes "Legendary Creature — Human Wizard" "Creature" = true := by decide
example : jsIncludes "Conspiracy" "Creature" = false := by decide
example : classify { name := "x", type_line := "Artifact Creature — Golem" } = "Creature" := by
  decide
example : classify { name := "x", type_line := "Conspiracy" } = "Other" := by decide
example :
    copyDeck { commander := "c", created_at := "", combos := [],
               cards := [{ name := "Sol Ring", type_line := "Artifact", quantity := 4 },
                         { name := "Arcane Signet", type_line := "Artifact" }] }
      = "1 Sol Ring\n1 Arcane Signet" := by decide
example : underscoreWs "Urza, Lord High Artificer" = "Urza,_Lord_High_Artificer" := by decide
example : (activate "7" (Except.ok "completed")).wsOpen = true := by decide
example : (activate "7" (Except.ok "completed")).navigations = ["/results/7"] := by decide
example :
    (processEvents "7" (activate "7" (Except.error ()))
      [{ timestamp := 1, agent_name := "System", message := sentinel },
       { timestamp := 2, agent_name := "System", message := sentinel }]).scheduled
      = [(2000, "/results/7"), (2000, "/results/7")] := by decide
example : generateDeck generatorInit { num_decks := 3 } (Except.ok "9") = generatorInit := by
  decide

/-! ## Lemmas about the categorization loop -/

theorem lookup_pushCard_self (k : String) (c : Card) (bs : List (String × List Card)) :
    List.lookup k (pushCard k c bs) = some ((List.lookup k bs).getD [] ++ [c]) := by
  induction bs with
  | nil => simp [pushCard, List.lookup]
  | cons p rest ih =>
    obtain ⟨k2, cs⟩ := p
    by_cases h : k2 = k
    · subst h
      simp [pushCard, List.lookup]
    · have h2 : (k2 == k) = false := beq_eq_false_iff_ne.mpr h
      have h3 : (k == k2) = false := beq_eq_false_iff_ne.mpr (Ne.symm h)
      simp [pushCard, List.lookup, h2, h3, ih]

theorem lookup_pushCard_ne (k k2 : String) (c : Card) (bs : List (String × List Card))
    (h : k ≠ k2) : List.lookup k (pushCard k2 c bs) = List.lookup k bs := by
  induction bs with
  | nil => simp [pushCard, List.lookup, beq_eq_false_iff_ne.mpr h]
  | cons p rest ih =>
    obtain ⟨k3, cs⟩ := p
    by_cases h3 : k3 = k2
    · subst h3
      simp [pushCard, List.lookup, beq_eq_false_iff_ne.mpr h]
    · by_cases h4 : k = k3
      · subst h4
        simp [pushCard, List.lookup, beq_eq_false_iff_ne.mpr h3]
      · simp [pushCard, List.lookup, beq_eq_false_iff_ne.mpr h3,
          beq_eq_false_iff_ne.mpr h4, ih]

theorem addCard_eq_pushCard (bs : List (String × List Card)) (c : Card) :
    addCard bs c = pushCard (classify c) c bs := by
  unfold addCard classify
  cases h : firstMatch c.type_line categoryOrder <;> simp [h]

/-- If a card matches some category, `classify` returns an element of the
fixed category list. -/
theorem firstMatch_mem (tl : String) (ks : List String) (k : String)
    (h : firstMatch tl ks = some k) : k ∈ ks := by
  induction ks with
  | nil => simp [firstMatch] at h
  | cons k2 rest ih =>
    by_cases h2 : jsIncludes tl k2 = true
    · simp [firstMatch, h2] at h
      simp [h]
    · simp [firstMatch, h2] at h
      exact List.mem_cons_of_mem _ (ih h)

theorem classify_mem_or_other (c : Card) :
    classify c ∈ categoryOrder ∨ classify c = "Other" := by
  unfold classify
  cases h : firstMatch c.type_line categoryOrder with
  | none => simp
  | some k => exact Or.inl (by simpa using firstMatch_mem _ _ _ h)

/-- Buckets already present absorb exactly the cards classified to them,
in deck order. -/
theorem lookup_foldl_present (k : String) (cards : List Card)
    (bs : List (String × List Card)) (cs : List Card)
    (h : List.lookup k bs = some cs) :
    List.lookup k (cards.foldl addCard bs)
      = some (cs ++ cards.filter (fun c => classify c == k)) := by
  induction cards generalizing bs cs with
  | nil => simpa using h
  | cons c rest ih =>
    rw [List.foldl_cons, addCard_eq_pushCard]
    by_cases hc : classify c = k
    · subst hc
      have h1 : List.lookup (classify c) (pushCard (classify c) c bs)
          = some (cs ++ [c]) := by
        rw [lookup_pushCard_self, h]
        rfl
      rw [ih _ _ h1]
      simp
    · have h1 : List.lookup k (pushCard (classify c) c bs) = some cs := by
        rw [lookup_pushCard_ne _ _ _ _ (fun h2 => hc h2.symm)]
        exact h
      rw [ih _ _ h1]
      simp [List.filter_cons, beq_eq_false_iff_ne.mpr hc]

/-- The lazily created "Other" bucket: absent exactly while no card has
fallen through every category. -/
theorem lookup_foldl_other (cards : List Card) (bs : List (String × List Card))
    (h : List.lookup "Other" bs = none) :
    List.lookup "Other" (cards.foldl addCard bs)
      = if cards.filter (fun c => classify c == "Other") = [] then none
        else some (cards.filter (fun c => classify c == "Other")) := by
  induction cards generalizing bs with
  | nil => simpa using h
  | cons c rest ih =>
    rw [List.foldl_cons, addCard_eq_pushCard]
    by_cases hc : classify c = "Other"
    · rw [hc]
      have h1 : List.lookup "Other" (pushCard "Other" c bs) = some [c] := by
        rw [lookup_pushCard_self, h]
        rfl
      rw [lookup_foldl_present _ _ _ _ h1]
      simp [List.filter_cons, hc]
    · have h1 : List.lookup "Other" (pushCard (classify c) c bs) = none := by
        rw [lookup_pushCard_ne _ _ _ _ (fun h2 => hc h2.symm)]
        exact h
      rw [ih _ h1]
      simp [List.filter_cons, beq_eq_false_iff_ne.mpr hc]

/-- Keys never pushed to stay absent. -/
theorem lookup_foldl_none (k : String) (cards : List Card)
    (bs : List (String × List Card)) (h : List.lookup k bs = none)
    (h2 : ∀ c ∈ cards, classify c ≠ k) :
    List.lookup k (cards.foldl addCard bs) = none := by
  induction cards generalizing bs with
  | nil => simpa using h
  | cons c rest ih =>
    rw [List.foldl_cons, addCard_eq_pushCard]
    have hnext : List.lookup k (pushCard (classify c) c bs) = none := by
      rw [lookup_pushCard_ne _ _ _ _ (fun h3 => h2 c (List.mem_cons_self c rest) h3.symm)]
      exact h
    exact ih _ hnext (fun c2 hm => h2 c2 (List.mem_cons_of_mem _ hm))

theorem lookup_initBuckets_of_mem (k : String) (h : k ∈ categoryOrder) :
    List.lookup k initBuckets = some [] := by
  fin_cases h <;> rfl

theorem lookup_initBuckets_other : List.lookup "Other" initBuckets = none := by rfl

theorem lookup_categorize_of_mem (k : String) (h : k ∈ categoryOrder) (cards : List Card) :
    List.lookup k (categorize cards) = some (cards.filter (fun c => classify c == k)) := by
  have h1 := lookup_foldl_present k cards initBuckets [] (lookup_initBuckets_of_mem k h)
  simpa [categorize] using h1

theorem lookup_categorize_other (cards : List Card) :
    List.lookup "Other" (categorize cards)
      = if cards.filter (fun c => classify c == "Other") = [] then none
        else some (cards.filter (fun c => classify c == "Other")) :=
  lookup_foldl_other cards initBuckets lookup_initBuckets_other

theorem lookup_map_empty_none (k : String) (ks : List String) (h : k ∉ ks) :
    List.lookup k (ks.map (fun k2 => (k2, ([] : List Card)))) = none := by
  induction ks with
  | nil => rfl
  | cons k2 rest ih =>
    have h1 : k ≠ k2 := fun he => h (he ▸ List.mem_cons_self k2 rest)
    have h2 : k ∉ rest := fun hm => h (List.mem_cons_of_mem _ hm)
    simp [List.lookup, beq_eq_false_iff_ne.mpr h1, ih h2]

theorem lookup_categorize_none (k : String) (h1 : k ∉ categoryOrder) (h2 : k ≠ "Other")
    (cards : List Card) : List.lookup k (categorize cards) = none := by
  refine lookup_foldl_none k cards initBuckets (lookup_map_empty_none k categoryOrder h1) ?_
  intro c _ he
  rcases classify_mem_or_other c with h3 | h3
  · exact h1 (he ▸ h3)
  · exact h2 (he ▸ h3)

theorem totalLen_pushCard (k : String) (c : Card) (bs : List (String × List Card)) :
    totalLen (pushCard k c bs) = totalLen bs + 1 := by
  induction bs with
  | nil => simp [pushCard, totalLen]
  | cons p rest ih =>
    obtain ⟨k2, cs⟩ := p
    by_cases h : k2 = k
    · subst h
      simp [pushCard, totalLen]
      omega
    · simp [pushCard, totalLen, beq_eq_false_iff_ne.mpr h] at *
      omega

theorem totalLen_foldl (cards : List Card) (bs : List (String × List Card)) :
    totalLen (cards.foldl addCard bs) = totalLen bs + cards.length := by
  induction cards generalizing bs with
  | nil => simp
  | cons c rest ih =>
    rw [List.foldl_cons, addCard_eq_pushCard, ih, totalLen_pushCard]
    simp
    omega

theorem totalLen_categorize (cards : List Card) :
    totalLen (categorize cards) = cards.length := by
  have h := totalLen_foldl cards initBuckets
  have h0 : totalLen initBuckets = 0 := rfl
  rw [categorize, h, h0]
  omega

/-- The scan stops at the first hit: if everything left of `k` misses and `k`
hits, the result is `k`. -/
theorem firstMatch_append (tl : String) (l1 : List String) (k : String) (l2 : List String)
    (hl1 : ∀ j ∈ l1, jsIncludes tl j = false) (hk : jsIncludes tl k = true) :
    firstMatch tl (l1 ++ k :: l2) = some k := by
  induction l1 with
  | nil => simp [firstMatch, hk]
  | cons j rest ih =>
    have hj := hl1 j (List.mem_cons_self j rest)
    simp only [List.cons_append, firstMatch, hj]
    simp only [Bool.false_eq_true, if_false]
    exact ih (fun j2 hm => hl1 j2 (List.mem_cons_of_mem _ hm))

theorem firstMatch_eq_none (tl : String) (ks : List String)
    (h : ∀ k ∈ ks, jsIncludes tl k = false) : firstMatch tl ks = none := by
  induction ks with
  | nil => rfl
  | cons k rest ih =>
    have hk := h k (List.mem_cons_self k rest)
    simp only [firstMatch, hk, Bool.false_eq_true, if_false]
    exact ih (fun k2 hm => h k2 (List.mem_cons_of_mem _ hm))

/-! ## Claims about the card classifier -/

/-- C2: the classifier assigns each card to the first category of the fixed
declared order (Creature, Planeswalker, Instant, Sorcery, Artifact,
Enchantment, Land) whose name occurs as a substring of the card's type line,
and to "Other" when none occurs; a card whose type line contains "Creature"
(in particular one containing both "Creature" and "Land") is classified
"Creature", lands in the "Creature" bucket of the categorization loop and
never in the "Land" bucket. -/
theorem claim_C2 (c : Card) :
    (∀ l1 k l2, categoryOrder = l1 ++ k :: l2 → jsIncludes c.type_line k = true →
        (∀ j ∈ l1, jsIncludes c.type_line j = false) → classify c = k)
  ∧ ((∀ k ∈ categoryOrder, jsIncludes c.type_line k = false) → classify c = "Other")
  ∧ (jsIncludes c.type_line "Creature" = true →
      classify c = "Creature"
    ∧ classify c ≠ "Land"
    ∧ ∀ cards : List Card, c ∈ cards →
        c ∈ (List.lookup "Creature" (categorize cards)).getD []
      ∧ c ∉ (List.lookup "Land" (categorize cards)).getD []) := by
  refine ⟨?_, ?_, ?_⟩
  · intro l1 k l2 heq hk hl1
    unfold classify
    rw [heq, firstMatch_append _ _ _ _ hl1 hk]
    rfl
  · intro h
    unfold classify
    rw [firstMatch_eq_none _ _ h]
    rfl
  · intro hk
    have hcl : classify c = "Creature" := by
      unfold classify
      have h1 : firstMatch c.type_line categoryOrder = some "Creature" := by
        show firstMatch c.type_line ("Creature" :: _) = some "Creature"
        simp [firstMatch, hk]
      rw [h1]
      rfl
    refine ⟨hcl, by rw [hcl]; decide, ?_⟩
    intro cards hc
    constructor
    · rw [lookup_categorize_of_mem "Creature" (by decide) cards]
      simp [List.mem_filter, hc, hcl]
    · rw [lookup_categorize_of_mem "Land" (by decide) cards]
      simp [List.mem_filter, hcl]

/-- Witness for C2 at a concrete card whose type line contains both
"Creature" and "Land". -/
theorem claim_C2_witness :
    classify { name := "Dryad Arbor", type_line := "Land Creature — Forest Dryad" } = "Creature"
  ∧ classify { name := "Dryad Arbor", type_line := "Land Creature — Forest Dryad" } ≠ "Land" := by
  have h := (claim_C2 { name := "Dryad Arbor", type_line := "Land Creature — Forest Dryad" }).2.2
    (by decide)
  exact ⟨h.1, h.2.1⟩

/-- C3: classification is total and deterministic: no card is dropped (the
bucket sizes sum to the card count), every card of the input lies in exactly
one bucket, a card with type line "Conspiracy" is classified "Other", and
re-running on the same input yields the same buckets. -/
theorem claim_C3 (cards : List Card) :
    totalLen (categorize cards) = cards.length
  ∧ (∀ c ∈ cards, ∃! k : String, c ∈ (List.lookup k (categorize cards)).getD [])
  ∧ (∀ c : Card, c.type_line = "Conspiracy" → classify c = "Other")
  ∧ categorize cards = categorize cards := by
  refine ⟨totalLen_categorize cards, ?_, ?_, rfl⟩
  · intro c hc
    refine ⟨classify c, ?_, ?_⟩
    · rcases classify_mem_or_other c with hmem | hother
      · rw [lookup_categorize_of_mem _ hmem]
        simp [List.mem_filter, hc]
      · rw [hother, lookup_categorize_other]
        have hfc : c ∈ cards.filter (fun c2 => classify c2 == "Other") := by
          simp [List.mem_filter, hc, hother]
        have hne : cards.filter (fun c2 => classify c2 == "Other") ≠ [] :=
          List.ne_nil_of_mem hfc
        simp only [hne, if_false]
        simpa using hfc
    · intro k hk
      by_cases hmem : k ∈ categoryOrder
      · rw [lookup_categorize_of_mem _ hmem] at hk
        simp [List.mem_filter] at hk
        exact hk.2.symm
      · by_cases hoth : k = "Other"
        · subst hoth
          rw [lookup_categorize_other] at hk
          by_cases hnil : cards.filter (fun c2 => classify c2 == "Other") = []
          · simp [hnil] at hk
          · simp only [hnil, if_false, Option.getD_some] at hk
            have := (List.mem_filter.mp hk).2
            exact (beq_iff_eq.mp this).symm
        · rw [lookup_categorize_none k hmem hoth cards] at hk
          simp at hk
  · intro c h
    unfold classify
    rw [h]
    decide

/-- Witness for C3: a one-card deck with an unmatched type line is kept (sum
of bucket sizes is 1) and "Conspiracy" classifies to "Other". -/
theorem claim_C3_witness :
    totalLen (categorize [{ name := "x", type_line := "Conspiracy" }]) = 1
  ∧ classify { name := "x", type_line := "Conspiracy" } = "Other" :=
  ⟨(claim_C3 [{ name := "x", type_line := "Conspiracy" }]).1,
   (claim_C3 []).2.2.1 { name := "x", type_line := "Conspiracy" } rfl⟩

/-- C10: every fixed-category bucket is exactly the in-order filter of the
input card list by its classification (so relative order is preserved); each
bucket is a sublist of the input; and the "Other" bucket exists exactly when
some card matched no category. -/
theorem claim_C10 (cards : List Card) :
    (∀ k ∈ categoryOrder,
        List.lookup k (categorize cards) = some (cards.filter (fun c => classify c == k)))
  ∧ (List.lookup "Other" (categorize cards)
      = if cards.filter (fun c => classify c == "Other") = [] then none
        else some (cards.filter (fun c => classify c == "Other")))
  ∧ (∀ k cs, List.lookup k (categorize cards) = some cs → List.Sublist cs cards) := by
  refine ⟨fun k hk => lookup_categorize_of_mem k hk cards, lookup_categorize_other cards, ?_⟩
  intro k cs hcs
  by_cases hmem : k ∈ categoryOrder
  · rw [lookup_categorize_of_mem _ hmem] at hcs
    cases hcs
    exact List.filter_sublist _
  · by_cases hoth : k = "Other"
    · subst hoth
      rw [lookup_categorize_other] at hcs
      by_cases hnil : cards.filter (fun c2 => classify c2 == "Other") = []
      · simp [hnil] at hcs
      · simp only [hnil, if_false, Option.some.injEq] at hcs
        rw [← hcs]
        exact List.filter_sublist _
    · rw [lookup_categorize_none k hmem hoth cards] at hcs
      simp at hcs

/-- Witness for C10: concrete two-card deck, Creature bucket keeps deck
order. -/
theorem claim_C10_witness :
    List.lookup "Creature" (categorize
      [{ name := "a", type_line := "Artifact Creature" },
       { name := "b", type_line := "Creature — Goblin" }])
      = some [{ name := "a", type_line := "Artifact Creature" },
              { name := "b", type_line := "Creature — Goblin" }] := by
  have h := (claim_C10
    [{ name := "a", type_line := "Artifact Creature" },
     { name := "b", type_line := "Creature — Goblin" }]).1 "Creature" (by decide)
  rw [h]
  decide

/-! ## Claims about the job monitor -/

theorem onMessage_logs (id : String) (s : MonitorState) (msg : LogEvent) :
    (onMessage id s msg).logs = s.logs ++ [msg] := by
  unfold onMessage
  by_cases h : (msg.message == sentinel) = true <;> simp [h]

theorem onMessage_status_of_ne (id : String) (s : MonitorState) (msg : LogEvent)
    (h : msg.message ≠ sentinel) : (onMessage id s msg).status = s.status := by
  unfold onMessage
  simp [beq_eq_false_iff_ne.mpr h]

/-- C1 counterexample: with the initial status fetch answering "completed",
the monitor does transition to completed and navigates — but the state after
activation has the stream connection open, refuting "no connection to
/ws/process/id is opened". -/
theorem claim_C1_counterexample :
    (activate "1" (Except.ok "completed")).status = "completed"
  ∧ (activate "1" (Except.ok "completed")).navigations = ["/results/1"]
  ∧ (activate "1" (Except.ok "completed")).wsOpen = true := by decide

/-- C1 (amended): on activation the streaming connection is opened
unconditionally, whatever the status fetch returns; when the fetch returns
"completed" the monitor transitions to completed and navigates immediately to
the results route (handing off to the result presenter). -/
theorem claim_C1_amended (id : String) (res : Except Unit String) :
    (activate id res).wsOpen = true
  ∧ (res = Except.ok "completed" →
      (activate id res).status = "completed"
    ∧ (activate id res).navigations = ["/results/" ++ id]) := by
  constructor
  · cases res with
    | ok st =>
      unfold activate applyStatusResult
      by_cases h : (st == "completed") = true <;> simp [h, openStream]
    | error e =>
      rfl
  · intro h
    subst h
    unfold activate applyStatusResult
    simp [openStream, monitorInit]

/-- Witness for the amended C1 at a concrete job id and completed status. -/
theorem claim_C1_amended_witness :
    (activate "1" (Except.ok "completed")).wsOpen = true
  ∧ (activate "1" (Except.ok "completed")).navigations = ["/results/1"] := by
  have h := claim_C1_amended "1" (Except.ok "completed")
  refine ⟨h.1, ?_⟩
  rw [(h.2 rfl).2]
  decide

/-- C5 counterexample: delivering the sentinel twice leaves two scheduled
navigation timeouts (the cleanup never clears them), so the monitor does
double-navigate, refuting "receiving it twice must not double-navigate". -/
theorem claim_C5_counterexample :
    (processEvents "1" monitorInit
      [{ timestamp := 1, agent_name := "System", message := "Deck generation complete." },
       { timestamp := 2, agent_name := "System", message := "Deck generation complete." }]).scheduled
      = [(2000, "/results/1"), (2000, "/results/1")] := by decide

/-- C5 (amended): each receipt of the sentinel message sets the state to
completed, appends the event to the log, and schedules one handoff navigation
to the results route after a fixed 2000 ms grace delay instead of navigating
immediately; nothing deduplicates these timeouts, so a second sentinel
schedules a second (same-target) navigation. -/
theorem claim_C5_amended (id : String) (s : MonitorState) (ev : LogEvent)
    (h : ev.message = sentinel) :
    (onMessage id s ev).status = "completed"
  ∧ (onMessage id s ev).scheduled = s.scheduled ++ [(2000, "/results/" ++ id)]
  ∧ (onMessage id s ev).navigations = s.navigations
  ∧ (onMessage id s ev).logs = s.logs ++ [ev] := by
  unfold onMessage
  simp [h]

/-- Witness for the amended C5 at a concrete sentinel event. -/
theorem claim_C5_amended_witness :
    (onMessage "1" monitorInit
      { timestamp := 0, agent_name := "System",
        message := "Deck generation complete." }).status = "completed"
  ∧ (onMessage "1" monitorInit
      { timestamp := 0, agent_name := "System",
        message := "Deck generation complete." }).scheduled = [(2000, "/results/1")] := by
  have h := claim_C5_amended "1" monitorInit
    { timestamp := 0, agent_name := "System", message := "Deck generation complete." } rfl
  refine ⟨h.1, ?_⟩
  rw [h.2.1]
  decide

/-- C8: the log is append-only in arrival order with no deduplication or
reordering (the final log is the previous log with the delivered events, as
delivered, appended), and any event sequence containing no sentinel message
leaves the monitor status unchanged. -/
theorem claim_C8 (id : String) (s : MonitorState) (events : List LogEvent) :
    (processEvents id s events).logs = s.logs ++ events
  ∧ ((∀ e ∈ events, e.message ≠ sentinel) →
      (processEvents id s events).status = s.status) := by
  induction events generalizing s with
  | nil => simp [processEvents]
  | cons e rest ih =>
    constructor
    · have h1 := (ih (onMessage id s e)).1
      show (processEvents id (onMessage id s e) rest).logs = _
      rw [h1, onMessage_logs]
      simp
    · intro h
      have h2 := (ih (onMessage id s e)).2 (fun e2 hm => h e2 (List.mem_cons_of_mem _ hm))
      show (processEvents id (onMessage id s e) rest).status = _
      rw [h2, onMessage_status_of_ne _ _ _ (h e (List.mem_cons_self e rest))]

/-- Witness for C8: a duplicated non-sentinel message appears twice in the
log, in order, and the status stays "pending". -/
theorem claim_C8_witness :
    (processEvents "1" monitorInit
      [{ timestamp := 1, agent_name := "A", message := "hello" },
       { timestamp := 1, agent_name := "A", message := "hello" }]).logs
      = [{ timestamp := 1, agent_name := "A", message := "hello" },
         { timestamp := 1, agent_name := "A", message := "hello" }]
  ∧ (processEvents "1" monitorInit
      [{ timestamp := 1, agent_name := "A", message := "hello" },
       { timestamp := 1, agent_name := "A", message := "hello" }]).status = "pending" := by
  have h := claim_C8 "1" monitorInit
    [{ timestamp := 1, agent_name := "A", message := "hello" },
     { timestamp := 1, agent_name := "A", message := "hello" }]
  refine ⟨by rw [h.1]; decide, ?_⟩
  rw [h.2 (by decide)]
  decide

/-! ## Claims about the job submitter -/

/-- C6: a failing commander generation leaves the previously held commander
untouched, surfaces exactly one alert to the user, and ends with the loading
flag lowered; every invocation (success or failure) issues exactly one
request — no automatic retry. -/
theorem claim_C6 (s : GeneratorState) (res : Except Unit Commander) :
    (generateCommander s res).requests = s.requests ++ ["POST /api/generate/commander"]
  ∧ (res = Except.error () →
      (generateCommander s res).commander = s.commander
    ∧ (generateCommander s res).alerts = s.alerts ++ ["Failed to generate commander"]
    ∧ (generateCommander s res).loadingCmd = false) := by
  constructor
  · unfold generateCommander
    cases res <;> simp
  · intro h
    subst h
    unfold generateCommander
    simp

/-- Witness for C6: a concrete failed call keeps the prior commander and
shows the alert. -/
theorem claim_C6_witness :
    (generateCommander
      { generatorInit with commander := some { name := "Krenko, Mob Boss" } }
      (Except.error ())).commander = some { name := "Krenko, Mob Boss" }
  ∧ (generateCommander
      { generatorInit with commander := some { name := "Krenko, Mob Boss" } }
      (Except.error ())).alerts = ["Failed to generate commander"] := by
  have h := (claim_C6
    { generatorInit with commander := some { name := "Krenko, Mob Boss" } }
    (Except.error ())).2 rfl
  refine ⟨by rw [h.1], by rw [h.2.1]; decide⟩

/-- C7: deck generation is a no-op when no commander exists; with a commander
and a successful submission with more than one requested deck, the multi-job
notice is shown and exactly one navigation is issued, to the single job id
the service returned. -/
theorem claim_C7 (s : GeneratorState) (req : DeckRequest) (res : Except Unit String) :
    (s.commander = none → generateDeck s req res = s)
  ∧ (∀ cmd deckId, s.commander = some cmd → res = Except.ok deckId → 1 < req.num_decks →
      (generateDeck s req res).alerts = s.alerts ++ [multiDeckNotice req.num_decks]
    ∧ (generateDeck s req res).navigations = s.navigations ++ ["/process/" ++ deckId]) := by
  constructor
  · intro h
    unfold generateDeck
    rw [h]
  · intro cmd deckId hc hr hn
    subst hr
    unfold generateDeck
    rw [hc]
    simp [hn]

/-- Witness for C7: with a commander present, requesting 3 decks and getting
job id "42" back shows the notice and navigates to that single job. -/
theorem claim_C7_witness :
    (generateDeck { generatorInit with commander := some { name := "Krenko, Mob Boss" } }
      { num_decks := 3 } (Except.ok "42")).alerts
      = ["Started generating 3 decks. Redirecting to the first one."]
  ∧ (generateDeck { generatorInit with commander := some { name := "Krenko, Mob Boss" } }
      { num_decks := 3 } (Except.ok "42")).navigations = ["/process/42"] := by
  have h := (claim_C7 { generatorInit with commander := some { name := "Krenko, Mob Boss" } }
    { num_decks := 3 } (Except.ok "42")).2 { name := "Krenko, Mob Boss" } "42" rfl rfl
    (by decide)
  refine ⟨by rw [h.1]; decide, by rw [h.2]; decide⟩

/-! ## Claims about the result presenter -/

/-- C4: the clipboard text and the downloaded file content are the same
string, one line "1 {name}" per card in deck order; the text depends only on
the card names (never on the stored quantities); and on a two-card deck of
Sol Ring and Arcane Signet it is exactly "1 Sol Ring\n1 Arcane Signet"
whatever the quantity fields hold. -/
theorem claim_C4 (d : Deck) :
    copyDeck d = String.intercalate "\n" (d.cards.map (fun c => "1 " ++ c.name))
  ∧ (downloadDeck d).1 = copyDeck d
  ∧ (∀ d2 : Deck, d.cards.map (fun c => c.name) = d2.cards.map (fun c => c.name) →
      copyDeck d = copyDeck d2)
  ∧ (∀ tl1 tl2 i1 i2 q1 q2 cm ca co,
      copyDeck { commander := cm, created_at := ca, combos := co,
                 cards := [{ name := "Sol Ring", type_line := tl1, image_uri := i1,
                             quantity := q1 },
                           { name := "Arcane Signet", type_line := tl2, image_uri := i2,
                             quantity := q2 }] }
        = "1 Sol Ring\n1 Arcane Signet") := by
  refine ⟨rfl, rfl, ?_, ?_⟩
  · intro d2 h
    show String.intercalate "\n" (d.cards.map (fun c => "1 " ++ c.name))
       = String.intercalate "\n" (d2.cards.map (fun c => "1 " ++ c.name))
    have h1 : d.cards.map (fun c => "1 " ++ c.name)
        = (d.cards.map (fun c => c.name)).map (fun n => "1 " ++ n) := by
      rw [List.map_map]
      rfl
    have h2 : d2.cards.map (fun c => "1 " ++ c.name)
        = (d2.cards.map (fun c => c.name)).map (fun n => "1 " ++ n) := by
      rw [List.map_map]
      rfl
    rw [h1, h2, h]
  · intro tl1 tl2 i1 i2 q1 q2 cm ca co
    rfl

/-- Witness for C4 at a concrete deck with non-1 quantities. -/
theorem claim_C4_witness :
    copyDeck { commander := "K", created_at := "", combos := [],
               cards := [{ name := "Sol Ring", type_line := "Artifact", quantity := 5 },
                         { name := "Arcane Signet", type_line := "Artifact", quantity := 7 }] }
      = "1 Sol Ring\n1 Arcane Signet" :=
  (claim_C4 { commander := "K", created_at := "", combos := [], cards := [] }).2.2.2
    "Artifact" "Artifact" none none 5 7 "K" "" []

/-- C9 counterexample: after a failed deck fetch from the initial state, no
message has been surfaced to the user (the error went to the console only),
refuting "surfaced to the user as a dismissible message (never silently)";
the page keeps rendering the loading placeholder. -/
theorem claim_C9_counterexample :
    (fetchDeckResult resultsInit (Except.error ())).userErrors = []
  ∧ (fetchDeckResult resultsInit (Except.error ())).consoleErrors = 1
  ∧ renderResults (fetchDeckResult resultsInit (Except.error ())) = ResultsView.loading := by
  decide

/-- C9 (amended): on fetch failure the error is only logged to the console —
no user-visible message is produced — and the deck stays as it was; while no
deck is present the presenter renders exactly the loading placeholder, and
once a deck is present it renders the full view (never a partial one). -/
theorem claim_C9_amended (s : ResultsState) (res : Except Unit Deck) :
    (res = Except.error () →
      (fetchDeckResult s res).userErrors = s.userErrors
    ∧ (fetchDeckResult s res).deck = s.deck
    ∧ (fetchDeckResult s res).consoleErrors = s.consoleErrors + 1)
  ∧ (∀ s2 : ResultsState, s2.deck = none → renderResults s2 = ResultsView.loading)
  ∧ (∀ s2 : ResultsState, ∀ d : Deck, s2.deck = some d → renderResults s2 = ResultsView.full d) := by
  refine ⟨?_, ?_, ?_⟩
  · intro h
    subst h
    simp [fetchDeckResult]
  · intro s2 h
    unfold renderResults
    rw [h]
  · intro s2 d h
    unfold renderResults
    rw [h]

/-- Witness for the amended C9 at the initial state and a failing fetch. -/
theorem claim_C9_amended_witness :
    (fetchDeckResult resultsInit (Except.error ())).deck = none
  ∧ renderResults resultsInit = ResultsView.loading := by
  have h := claim_C9_amended resultsInit (Except.error ())
  exact ⟨by rw [(h.1 rfl).2.1]; rfl, h.2.1 resultsInit rfl⟩

